import Mathlib

/-
Verification development for the tracr job/run/page orchestration engine.

Shallow embedding of the Python sources:
  src/tracr/runtime/job_manager.py   (JobManager)
  src/tracr/runtime/vllm_manager.py  (VLLMServerManager)
  src/tracr/runtime/openai_client.py (OpenAICompatibleOCRClient)
  src/tracr/core/output_layout.py    (write_json)
  src/tracr/core/models.py           (RunStatus, JobProgress, ModelRunProgress)

Machine integers are modelled as Int/Nat; float-valued durations are modelled
as exact rationals (none of the checked properties depend on rounding);
fallible code returns Except/Option; dict payloads become structures whose
fields are Option-typed where a key may be absent.
-/

namespace Tracr

/-! ## core/models.py: RunStatus -/

/-- `RunStatus` enum from src/tracr/core/models.py. -/
inductive RunStatus where
  | queued
  | waiting_resources
  | running
  | completed
  | failed
  | canceled
deriving DecidableEq, Repr

/-- The string value of each enum member (`RunStatus.X.value` in Python). -/
def RunStatus.value : RunStatus → String
  | .queued => "queued"
  | .waiting_resources => "waiting_resources"
  | .running => "running"
  | .completed => "completed"
  | .failed => "failed"
  | .canceled => "canceled"

/-! ## job_manager.py: final job status aggregation (`_run_job`, lines 415-429)

After `asyncio.gather` over all run executors, `_run_job` recomputes the job
status from the run statuses with an if/elif chain over `all(...)`/`any(...)`.
`cancelRequested` is `cancel_event.is_set()`. -/

def finalJobStatus (cancelRequested : Bool) (runs : List RunStatus) : RunStatus :=
  if cancelRequested && runs.all (· == RunStatus.canceled) then
    RunStatus.canceled
  else if runs.any (· == RunStatus.failed) then
    if runs.any (· == RunStatus.completed) then RunStatus.completed else RunStatus.failed
  else if runs.all (· == RunStatus.completed) then
    RunStatus.completed
  else if runs.any (· == RunStatus.running) then
    RunStatus.running
  else
    RunStatus.failed

/-! ## job_manager.py: token usage extraction (lines 100-101 and 128-143)

A provider usage payload is a JSON object; the keys the code reads are
modelled as optional integers (`none` = key absent; `_safe_int` turns any
non-integer junk value into `0`, which is indistinguishable from a present
`0` for every field below). -/

/-- Token usage triple (`_new_token_usage` shape). -/
structure TokenUsage where
  input_tokens : Int
  output_tokens : Int
  total_tokens : Int
deriving DecidableEq, Repr

/-- `JobManager._new_token_usage`. -/
def newTokenUsage : TokenUsage := ⟨0, 0, 0⟩

/-- The provider usage keys read by `_token_usage_from_provider_usage`. -/
structure ProviderUsage where
  prompt_tokens : Option Int
  input_tokens : Option Int
  completion_tokens : Option Int
  output_tokens : Option Int
  total_tokens : Option Int
deriving DecidableEq, Repr

/-- `usage.get("prompt_tokens", usage.get("input_tokens", 0))` through `_safe_int`. -/
def rawInputTokens (u : ProviderUsage) : Int :=
  (u.prompt_tokens <|> u.input_tokens).getD 0

/-- `usage.get("completion_tokens", usage.get("output_tokens", 0))` through `_safe_int`. -/
def rawOutputTokens (u : ProviderUsage) : Int :=
  (u.completion_tokens <|> u.output_tokens).getD 0

/-- `JobManager._token_usage_from_provider_usage`.  `none` models a `None`
payload; a present-but-empty dict takes the same `if not usage` early return
in Python and is modelled by `some u` with every field `none`, which computes
to the same all-zero triple (proved in the C10 theorem). -/
def tokenUsageFromProviderUsage (usage : Option ProviderUsage) : TokenUsage :=
  match usage with
  | none => newTokenUsage
  | some u =>
    let input_tokens := rawInputTokens u
    let output_tokens := rawOutputTokens u
    let total_tokens₀ := u.total_tokens.getD 0
    let total_tokens := if total_tokens₀ ≤ 0 then input_tokens + output_tokens else total_tokens₀
    { input_tokens := max 0 input_tokens
      output_tokens := max 0 output_tokens
      total_tokens := max 0 total_tokens }

/-! ## job_manager.py: run metrics and statistics (lines 103-171, 173-245)

Float-valued durations are modelled as exact rationals. -/

/-- The mutable metrics accumulator (`_new_metrics` shape). -/
structure Metrics where
  pages_attempted : Int
  pages_succeeded : Int
  pages_failed : Int
  processing_time_seconds : ℚ
  ocr_request_time_seconds : ℚ
  token_usage : TokenUsage
deriving DecidableEq, Repr

/-- `JobManager._new_metrics`. -/
def newMetrics : Metrics :=
  { pages_attempted := 0
    pages_succeeded := 0
    pages_failed := 0
    processing_time_seconds := 0
    ocr_request_time_seconds := 0
    token_usage := newTokenUsage }

/-- `JobManager._merge_token_usage` (mutates `target` in place; modelled as
returning the new value).  On typed inputs `_safe_int` is the identity. -/
def mergeTokenUsage (target source : TokenUsage) : TokenUsage :=
  { input_tokens := target.input_tokens + source.input_tokens
    output_tokens := target.output_tokens + source.output_tokens
    total_tokens := target.total_tokens + source.total_tokens }

/-- The snapshot produced by `_finalize_metrics`. -/
structure FinalizedMetrics where
  pages_attempted : Int
  pages_succeeded : Int
  pages_failed : Int
  processing_time_seconds : ℚ
  ocr_request_time_seconds : ℚ
  average_processing_time_seconds : ℚ
  average_ocr_request_time_seconds : ℚ
  token_usage : TokenUsage
  runtime_seconds : Option ℚ
deriving DecidableEq, Repr

/-- `JobManager._finalize_metrics`. -/
def finalizeMetrics (metrics : Metrics) (runtime_seconds : Option ℚ) : FinalizedMetrics :=
  let pages_attempted := max 0 metrics.pages_attempted
  let processing_time := max 0 metrics.processing_time_seconds
  let request_time := max 0 metrics.ocr_request_time_seconds
  let token_usage := mergeTokenUsage newTokenUsage metrics.token_usage
  { pages_attempted := pages_attempted
    pages_succeeded := max 0 metrics.pages_succeeded
    pages_failed := max 0 metrics.pages_failed
    processing_time_seconds := processing_time
    ocr_request_time_seconds := request_time
    average_processing_time_seconds :=
      if 0 < pages_attempted then processing_time / (pages_attempted : ℚ) else 0
    average_ocr_request_time_seconds :=
      if 0 < pages_attempted then request_time / (pages_attempted : ℚ) else 0
    token_usage := token_usage
    runtime_seconds := runtime_seconds.map (fun r => max 0 r) }

/-! ## core/models.py + job_manager.py: in-memory job state (projection)

`ModelRunProgress` and `JobProgress` are projected onto the fields the
persisted job-metadata payload and the status aggregation read. -/

/-- Projection of `ModelRunProgress` (core/models.py). -/
structure ModelRun where
  run_id : String
  status : RunStatus
  total_pages : Int
  completed_pages : Int
deriving DecidableEq, Repr

/-- Projection of `JobProgress` (core/models.py). -/
structure Job where
  job_id : String
  status : RunStatus
  created_at : String
  total_pages_all_models : Int
  completed_pages_all_models : Int
  models : List ModelRun
deriving DecidableEq, Repr

/-- `JobManager._run_metrics`, keyed by `_run_metrics_key`. -/
abbrev MetricsStore := List (String × Metrics)

/-- `JobManager._run_metrics_key`. -/
def runMetricsKey (job_id run_id : String) : String :=
  job_id ++ "::" ++ run_id

/-- `JobManager._run_statistics` (the serialization copy is value semantics
here; `run_metadata`-level statistics carry no runtime key). -/
def runStatisticsOf (store : MetricsStore) (job_id run_id : String) : FinalizedMetrics :=
  finalizeMetrics ((store.lookup (runMetricsKey job_id run_id)).getD newMetrics) none

/-- The aggregation loop inside `JobManager._job_statistics`. -/
def jobAggregateMetrics (store : MetricsStore) (job : Job) : Metrics :=
  job.models.foldl
    (fun agg run =>
      let rs := runStatisticsOf store job.job_id run.run_id
      { pages_attempted := agg.pages_attempted + rs.pages_attempted
        pages_succeeded := agg.pages_succeeded + rs.pages_succeeded
        pages_failed := agg.pages_failed + rs.pages_failed
        processing_time_seconds := agg.processing_time_seconds + rs.processing_time_seconds
        ocr_request_time_seconds := agg.ocr_request_time_seconds + rs.ocr_request_time_seconds
        token_usage := mergeTokenUsage agg.token_usage rs.token_usage })
    newMetrics

/-- `JobManager._job_statistics`. -/
def jobStatisticsOf (store : MetricsStore) (job : Job) (runtime_seconds : ℚ) : FinalizedMetrics :=
  finalizeMetrics (jobAggregateMetrics store job) (some runtime_seconds)

/-! ## job_manager.py: `_persist_job_metadata` (lines 494-512) -/

/-- The job-metadata JSON payload (the fields C1 is about; timestamps other
than `created_at` and the path-relativized fields are orthogonal and
omitted). -/
structure JobMetadataPayload where
  job_id : String
  status : String
  created_at : String
  total_pages_all_models : Int
  completed_pages_all_models : Int
  models : List ModelRun
  statistics : FinalizedMetrics
deriving DecidableEq, Repr

/-- The payload built by `JobManager._persist_job_metadata` from the
in-memory `JobProgress` and the metrics accumulators only. -/
def persistJobMetadataPayload (store : MetricsStore) (job : Job)
    (runtime_seconds : ℚ) : JobMetadataPayload :=
  { job_id := job.job_id
    status := job.status.value
    created_at := job.created_at
    total_pages_all_models := job.total_pages_all_models
    completed_pages_all_models := job.completed_pages_all_models
    models := job.models
    statistics := jobStatisticsOf store job runtime_seconds }

/-- The content of `job_metadata.json` after `_persist_job_metadata` runs.
`write_json` (output_layout.py lines 29-31) is `path.write_text(...)`, a
truncating overwrite, and `_persist_job_metadata` never reads the target
path, so the result does not depend on the previous file content. -/
def jobMetadataFileAfterPersist (_existingFile : Option JobMetadataPayload)
    (store : MetricsStore) (job : Job) (runtime_seconds : ℚ) : JobMetadataPayload :=
  persistJobMetadataPayload store job runtime_seconds

/-! Concrete scenario of C1 (the scenario of
`test_job_metadata_merges_existing_runs_for_reused_job_id`): the metadata
file on disk holds a historical run `model-a:1` with token usage
{10, 20, 30} and 2/2 pages; memory holds only the new run `model-b:1`
contributing {5, 7, 12} and 1/3 pages. -/

/-- The pre-existing `job_metadata.json` content for the reused job id. -/
def existingJobFileC1 : JobMetadataPayload :=
  { job_id := "job-s"
    status := "completed"
    created_at := "2026-02-07T00:00:00+00:00"
    total_pages_all_models := 2
    completed_pages_all_models := 2
    models := [{ run_id := "model-a:1", status := RunStatus.completed,
                 total_pages := 2, completed_pages := 2 }]
    statistics :=
      { pages_attempted := 2
        pages_succeeded := 2
        pages_failed := 0
        processing_time_seconds := 3
        ocr_request_time_seconds := 2
        average_processing_time_seconds := 3 / 2
        average_ocr_request_time_seconds := 1
        token_usage := { input_tokens := 10, output_tokens := 20, total_tokens := 30 }
        runtime_seconds := some 10 } }

/-- The in-memory job for the reused id: only run `model-b:1`, 1/3 pages. -/
def inMemoryJobC1 : Job :=
  { job_id := "job-s"
    status := RunStatus.queued
    created_at := "2026-02-08T00:00:00+00:00"
    total_pages_all_models := 3
    completed_pages_all_models := 1
    models := [{ run_id := "model-b:1", status := RunStatus.queued,
                 total_pages := 3, completed_pages := 1 }] }

/-- The in-memory metrics for run `model-b:1`: token usage {5, 7, 12}. -/
def metricsStoreC1 : MetricsStore :=
  [(runMetricsKey "job-s" "model-b:1",
    { pages_attempted := 1
      pages_succeeded := 1
      pages_failed := 0
      processing_time_seconds := 3 / 2
      ocr_request_time_seconds := 1
      token_usage := { input_tokens := 5, output_tokens := 7, total_tokens := 12 } })]

/-! ## job_manager.py: per-document metadata (`_pdf_statistics` lines 228-245,
`_persist_pdf_metadata` lines 554-578) -/

/-- A page outcome record (the `page_record` dict built in
`_run_single_model`, lines 784-800; timestamps and output-path fields are
orthogonal to the claims and omitted). -/
structure PageRecord where
  page_number : Nat
  status : String
  processing_time_seconds : ℚ
  ocr_request_time_seconds : Option ℚ
  attempts : Nat
  finish_reason : Option String
  provider_model : Option String
  token_usage : TokenUsage
  error : Option String
deriving DecidableEq, Repr

/-- The statistics rollup written into `pdf_metadata.json`
(`JobManager._pdf_statistics`). -/
structure PdfStatistics where
  base : FinalizedMetrics
  page_count : Int
  processed_pages : Int
deriving DecidableEq, Repr

/-- `JobManager._pdf_statistics`. -/
def pdfStatisticsOf (page_count : Int) (pages : List PageRecord) : PdfStatistics :=
  let agg := pages.foldl
    (fun a p =>
      { pages_attempted := a.pages_attempted + 1
        pages_succeeded :=
          a.pages_succeeded + (if p.status.toLower == "completed" then 1 else 0)
        pages_failed :=
          a.pages_failed + (if p.status.toLower == "completed" then 0 else 1)
        processing_time_seconds := a.processing_time_seconds + p.processing_time_seconds
        ocr_request_time_seconds :=
          a.ocr_request_time_seconds + p.ocr_request_time_seconds.getD 0
        token_usage := mergeTokenUsage a.token_usage p.token_usage })
    newMetrics
  let finalized := finalizeMetrics agg none
  { base := finalized
    page_count := max 0 page_count
    processed_pages := finalized.pages_attempted }

/-- The `pdf_metadata.json` payload. -/
structure PdfMetadataPayload where
  source_pdf : String
  pdf_slug : String
  page_count : Int
  created_at : String
  updated_at : String
  started_at : Option String
  ended_at : Option String
  statistics : PdfStatistics
  pages : List PageRecord
deriving DecidableEq, Repr

/-- `sorted(pages, key=lambda entry: int(entry.get("page_number", 0)))` in
`_persist_pdf_metadata` line 576 (Python `sorted` is a stable ascending
sort). -/
def sortPagesByPageNumber (pages : List PageRecord) : List PageRecord :=
  pages.mergeSort (fun a b => decide (a.page_number ≤ b.page_number))

/-- `JobManager._persist_pdf_metadata`.  `existing` is what
`_read_json_if_exists` returned (`none` models a missing or unreadable file,
which reads as `{}`); `now` is `datetime.now(UTC).isoformat()`. -/
def persistPdfMetadata (existing : Option PdfMetadataPayload) (now : String)
    (source_pdf pdf_slug : String) (page_count : Int) (pages : List PageRecord)
    (started_at ended_at : Option String) : PdfMetadataPayload :=
  let existing_created := (existing.map (fun e => e.created_at)).getD ""
  let created_at := if existing_created = "" then now else existing_created
  { source_pdf := source_pdf
    pdf_slug := pdf_slug
    page_count := page_count
    created_at := created_at
    updated_at := now
    started_at := started_at <|> existing.bind (fun e => e.started_at)
    ended_at := ended_at
    statistics := pdfStatisticsOf page_count pages
    pages := sortPagesByPageNumber pages }

/-- A concrete completed page record for page `n` (used by witnesses). -/
def samplePageRecord (n : Nat) : PageRecord :=
  { page_number := n
    status := "completed"
    processing_time_seconds := 1
    ocr_request_time_seconds := some 1
    attempts := 1
    finish_reason := some "stop"
    provider_model := some "org/model-a"
    token_usage := { input_tokens := 1, output_tokens := 2, total_tokens := 3 }
    error := none }

/-! ## job_manager.py: the page-dispatch loop of `_run_single_model`
(lines 707-828)

Pages are drawn from a lazy iterator in ascending order and submitted to a
thread pool of `max_concurrent_requests` workers; `pending` maps in-flight
futures to page numbers.  The state is modelled by the three disjoint page
sets; a schedule entry `(cancelNow, pick)` fixes, for one iteration of the
outer `while True`, whether `cancel_event.is_set()` held during refill and
which in-flight request the `concurrent.futures.wait(FIRST_COMPLETED)` call
reported done (the per-future for-loop handles each completion one at a
time, so a done set of size k is k consecutive completions). -/

/-- The page-dispatch loop state: pages not yet drawn from the iterator,
in-flight page numbers (the `pending` dict), and handled page numbers in
completion order. -/
structure DispatchState where
  remaining : List Nat
  pending : List Nat
  outcomes : List Nat
deriving DecidableEq, Repr

/-- The inner refill loop (lines 713-730): submit pages while the iterator
is not exhausted and `len(pending) < max_concurrent_requests`. -/
def refillAux (maxConcurrent : Nat) : List Nat → List Nat → List Nat × List Nat
  | [], pending => ([], pending)
  | page :: rest, pending =>
    if pending.length < maxConcurrent then
      refillAux maxConcurrent rest (pending ++ [page])
    else
      (page :: rest, pending)

/-- One pass of the refill loop; when `cancel_event.is_set()` the loop body
is skipped and nothing is submitted. -/
def refill (maxConcurrent : Nat) (cancelSet : Bool) (s : DispatchState) : DispatchState :=
  if cancelSet then s
  else
    let r := refillAux maxConcurrent s.remaining s.pending
    { remaining := r.1, pending := r.2, outcomes := s.outcomes }

/-- Handling one completed future (lines 737-825): it is removed from
`pending` and its page outcome is recorded.  `pick` chooses which in-flight
request completed (completion order is scheduler-dependent). -/
def completeOne (pick : Nat) (s : DispatchState) : DispatchState :=
  if s.pending.length = 0 then s
  else
    let i := pick % s.pending.length
    { remaining := s.remaining
      pending := s.pending.eraseIdx i
      outcomes := s.outcomes ++ [s.pending.getD i 0] }

/-- The outer `while True` loop, driven by a schedule: refill, exit when no
request is pending (iterator exhausted or canceled), otherwise handle one
completion and continue. -/
def runDispatch (maxConcurrent : Nat) : List (Bool × Nat) → DispatchState → DispatchState
  | [], s => s
  | (cancelNow, pick) :: rest, s =>
    let s₁ := refill maxConcurrent cancelNow s
    if s₁.pending.isEmpty then s₁
    else runDispatch maxConcurrent rest (completeOne pick s₁)

/-- Every state the dispatch loop passes through (after each refill and each
completion), for stating state invariants. -/
def dispatchTrace (maxConcurrent : Nat) : List (Bool × Nat) → DispatchState → List DispatchState
  | [], s => [s]
  | (cancelNow, pick) :: rest, s =>
    let s₁ := refill maxConcurrent cancelNow s
    if s₁.pending.isEmpty then [s, s₁]
    else s :: s₁ :: dispatchTrace maxConcurrent rest (completeOne pick s₁)

/-! ## openai_client.py / job_manager.py: page request outcomes -/

/-- `OCRPageResult` (openai_client.py). -/
structure OCRPageResult where
  markdown : String
  request_duration_seconds : ℚ
  usage : Option ProviderUsage
  finish_reason : Option String
  provider_model : Option String
  attempts : Nat
deriving DecidableEq, Repr

/-- `_PageOCROutcome` (job_manager.py lines 35-47; timestamps omitted). -/
structure PageOCROutcome where
  page_number : Nat
  markdown_text : String
  usage_payload : Option ProviderUsage
  finish_reason : Option String
  provider_model : Option String
  attempts : Nat
  request_seconds : Option ℚ
  error_text : Option String
  processing_seconds : ℚ
deriving DecidableEq, Repr

/-- `JobManager._process_page_ocr_request` (lines 580-632): the whole
`client.ocr_page` call sits in a try/except, so a raising page request is
converted into a failed outcome (error text captured, placeholder comment as
the page text) instead of propagating. -/
def processPageOcrRequest (page_number : Nat) (processing_seconds : ℚ)
    (result : Except String OCRPageResult) : PageOCROutcome :=
  match result with
  | .ok r =>
    { page_number := page_number
      markdown_text := r.markdown
      usage_payload := r.usage
      finish_reason := r.finish_reason
      provider_model := r.provider_model
      attempts := r.attempts
      request_seconds := some r.request_duration_seconds
      error_text := none
      processing_seconds := processing_seconds }
  | .error e =>
    { page_number := page_number
      markdown_text := "<!-- OCR failed for page " ++ toString page_number ++ ": " ++ e ++ " -->\n"
      usage_payload := none
      finish_reason := none
      provider_model := none
      attempts := 0
      request_seconds := none
      error_text := some e
      processing_seconds := processing_seconds }

/-- The `page_record` dict built from an outcome in `_run_single_model`
(lines 784-800). -/
def pageRecordOfOutcome (o : PageOCROutcome) : PageRecord :=
  { page_number := o.page_number
    status := if o.error_text.isNone then "completed" else "failed"
    processing_time_seconds := o.processing_seconds
    ocr_request_time_seconds := o.request_seconds
    attempts := o.attempts
    finish_reason := o.finish_reason
    provider_model := o.provider_model
    token_usage := tokenUsageFromProviderUsage o.usage_payload
    error := o.error_text }

/-- The final status of one run executor (`_run_single_model` lines 840-862):
an exception escaping the run body (resource acquisition, auth, anything
outside the per-page try/except) marks the run failed with the captured
message; a normal exit is canceled or completed depending on the cancel
event. -/
def runSingleModelFinalStatus (bodyResult : Except String Bool) : RunStatus × Option String :=
  match bodyResult with
  | .error exc => (RunStatus.failed, some exc)
  | .ok canceledObserved =>
    if canceledObserved then (RunStatus.canceled, none) else (RunStatus.completed, none)

/-! ## openai_client.py: `OpenAICompatibleOCRClient.ocr_page` (lines 81-138)

The network is modelled by `responses : Nat → AttemptOutcome`, giving what
the provider call raises or returns on each attempt number. -/

/-- The retryable status-code allow-list (line 128). -/
def retryableStatusCodes : List Nat := [408, 409, 425, 429, 500, 502, 503, 504]

/-- What one `chat.completions.create` call does: succeed, raise
`APIConnectionError`/`APITimeoutError`, or raise `APIStatusError` with a
status code. -/
inductive AttemptOutcome where
  | success (result : OCRPageResult)
  | connectionError (message : String)
  | statusError (status_code : Nat) (message : String)
deriving DecidableEq, Repr

/-- How `ocr_page` can fail: re-raising a non-retryable `APIStatusError`,
the final `RuntimeError` wrapping the last underlying error, or the
defensive no-concrete-error branch (line 138). -/
inductive OcrPageError where
  | statusRaise (status_code : Nat) (message : String)
  | finalFailure (message : String)
  | noConcreteError
deriving DecidableEq, Repr

/-- The final-failure message (lines 135-137): names the model and the
endpoint and wraps the string form of the last underlying error. -/
def ocrFailureMessage (model base_url lastError : String) : String :=
  "OCR request failed for model \x27" ++ model ++ "\x27 against \x27" ++
    base_url ++ "\x27: " ++ lastError

/-- `time.sleep(min(2**attempt, 15))` (line 132), in seconds. -/
def backoffSleep (attempt : Nat) : Nat := min (2 ^ attempt) 15

/-- Whether an attempt outcome takes a retry branch of the except clauses. -/
def isRetryableOutcome : AttemptOutcome → Bool
  | AttemptOutcome.success _ => false
  | AttemptOutcome.connectionError _ => true
  | AttemptOutcome.statusError code _ => decide (code ∈ retryableStatusCodes)

/-- The message `str(exc)` of a failed attempt. -/
def outcomeMessage : AttemptOutcome → String
  | AttemptOutcome.success _ => ""
  | AttemptOutcome.connectionError e => e
  | AttemptOutcome.statusError _ e => e

/-- The `for attempt in range(1, retries + 1)` loop of `ocr_page`, over the
list of remaining attempt numbers, threading `last_error` and collecting the
performed sleeps.  On success the result record carries the attempt count;
a non-retryable status error re-raises at once; after the last attempt the
wrapped `RuntimeError` is raised. -/
def ocrPageLoop (model base_url : String) (responses : Nat → AttemptOutcome) (retries : Nat) :
    List Nat → Option String → List Nat → Except OcrPageError OCRPageResult × List Nat
  | [], lastError, sleeps =>
    match lastError with
    | some e =>
      (Except.error (OcrPageError.finalFailure (ocrFailureMessage model base_url e)), sleeps)
    | none => (Except.error OcrPageError.noConcreteError, sleeps)
  | attempt :: restAttempts, _lastError, sleeps =>
    match responses attempt with
    | AttemptOutcome.success r => (Except.ok { r with attempts := attempt }, sleeps)
    | AttemptOutcome.connectionError e =>
      ocrPageLoop model base_url responses retries restAttempts (some e)
        (if attempt < retries then sleeps ++ [backoffSleep attempt] else sleeps)
    | AttemptOutcome.statusError code e =>
      if code ∈ retryableStatusCodes then
        ocrPageLoop model base_url responses retries restAttempts (some e)
          (if attempt < retries then sleeps ++ [backoffSleep attempt] else sleeps)
      else
        (Except.error (OcrPageError.statusRaise code e), sleeps)

/-- `OpenAICompatibleOCRClient.ocr_page`.  `retries` defaults to 4 in the
Python signature and the job manager calls it without overriding. -/
def ocrPage (model base_url : String) (responses : Nat → AttemptOutcome)
    (retries : Nat) : Except OcrPageError OCRPageResult × List Nat :=
  ocrPageLoop model base_url responses retries (List.range' 1 retries) none []

/-- Concrete per-page request results for the C6 witness: page 1 raises,
page 2 succeeds. -/
def sampleResultsC6 : Nat → Except String OCRPageResult :=
  fun q =>
    if q = 1 then Except.error "boom"
    else Except.ok
      { markdown := "ok"
        request_duration_seconds := 1
        usage := none
        finish_reason := some "stop"
        provider_model := some "org/model-a"
        attempts := 1 }

/-! ## vllm_manager.py: the local server pool (`VLLMServerManager`)

The process table and GPU allocator are explicit state.  `processAlive`
models `process.poll() is None`.  The readiness polling and its failure path
(lines 256-274) concern a spawned process that never becomes healthy and are
outside the claims; the spawn path here is the successful registration.
Port probing (`_find_open_port`) is modelled as taking the cursor port and
advancing it. -/

/-- `ServerHandle` (vllm_manager.py lines 21-30). -/
structure ServerHandle where
  key : String
  model : String
  base_url : String
  port : Nat
  gpu_ids : List Nat
  processAlive : Bool
  log_path : String
  ref_count : Int
deriving DecidableEq, Repr

/-- The manager state: registered servers keyed by fingerprint, allocated
accelerator ids, probed totals and limits, and the port cursor. -/
structure PoolState where
  servers : List (String × ServerHandle)
  allocated_gpu_ids : List Nat
  total_gpus : Nat
  local_max_concurrent_models : Nat
  next_port : Nat
deriving DecidableEq, Repr

/-- `_supports_local_mode` (lines 66-71). -/
def supportsLocalMode (total_gpus : Nat) (vllmInstalled : Bool) : Option String :=
  if total_gpus = 0 then some "No visible NVIDIA GPUs."
  else if !vllmInstalled then
    some "vllm is not installed. Install with: uv sync --extra local"
  else none

/-- The oversubscription error text (lines 150-154). -/
def oversubscriptionMessage (tp dp total : Nat) : String :=
  "Requested " ++ toString (tp * dp) ++ " GPUs (tp=" ++ toString tp ++
    ", dp=" ++ toString dp ++ "), but only " ++ toString total ++
    " GPUs are available"

/-- The GLM-OCR transformers-version error (lines 156-166; remediation text
abbreviated — no claim depends on its wording). -/
def glmTransformersMessage : String :=
  "zai-org/GLM-OCR requires newer transformers support for glm_ocr"

/-- The configuration fingerprint (lines 176-179).  `gpu_mem`, `max_len`
and `extra_args_json` arrive already stringified. -/
def buildServerKey (model : String) (tp dp : Nat)
    (gpu_mem max_len extra_args_json : String) : String :=
  model ++ "::" ++ toString tp ++ "::" ++ toString dp ++ "::" ++ gpu_mem ++
    "::" ++ max_len ++ "::" ++ extra_args_json

/-- `self._servers.get(key)`. -/
def lookupServer (st : PoolState) (key : String) : Option ServerHandle :=
  st.servers.lookup key

/-- `handle.ref_count + 1` on a handle. -/
def bumpHandle (h : ServerHandle) : ServerHandle :=
  { h with ref_count := h.ref_count + 1 }

/-- Overwrite a handle's reference count. -/
def setHandleRefCount (n : Int) (h : ServerHandle) : ServerHandle :=
  { h with ref_count := n }

/-- `existing.ref_count += 1` on the registry entry. -/
def bumpServerRefCount (st : PoolState) (key : String) : PoolState :=
  { st with
    servers :=
      st.servers.map
        (fun kv => if kv.1 = key then (kv.1, bumpHandle kv.2) else kv) }

/-- `current.ref_count -= 1` on the registry entry. -/
def setServerRefCount (st : PoolState) (key : String) (n : Int) : PoolState :=
  { st with
    servers :=
      st.servers.map
        (fun kv => if kv.1 = key then (kv.1, setHandleRefCount n kv.2) else kv) }

/-- The free accelerator ids (`_allocate_gpus` line 85). -/
def freeGpuIds (st : PoolState) : List Nat :=
  (List.range st.total_gpus).filter (fun i => decide (i ∉ st.allocated_gpu_ids))

/-- `_allocate_gpus`: the first `count` free ids, or unavailable. -/
def allocateGpus (st : PoolState) (count : Nat) : Option (List Nat × PoolState) :=
  let free := freeGpuIds st
  if free.length < count then none
  else some ((free.take count),
    { st with allocated_gpu_ids := st.allocated_gpu_ids ++ free.take count })

/-- `_release_gpu_ids`. -/
def releaseGpuIds (st : PoolState) (ids : List Nat) : PoolState :=
  { st with allocated_gpu_ids :=
      st.allocated_gpu_ids.filter (fun i => decide (i ∉ ids)) }

/-- What `acquire_server` does, observed atomically: return a handle (with
whether a new child process was started), raise, or enter the blocking
wait loop of lines 187-201. -/
inductive AcquireOutcome where
  | ok (st : PoolState) (handle : ServerHandle) (startedNewProcess : Bool)
  | error (message : String)
  | blocked
deriving DecidableEq, Repr

/-- `VLLMServerManager.acquire_server` (lines 133-289): support and
oversubscription prechecks (fail fast, before any wait), the model-specific
transformers gate, then fingerprint sharing; otherwise the spawn path, which
blocks when the server-count ceiling or the free-accelerator set does not
allow an immediate allocation. -/
def acquireServer (st : PoolState) (vllmInstalled : Bool) (model : String)
    (tp dp : Nat) (gpu_mem max_len extra_args_json : String)
    (glmTooOld : Bool) : AcquireOutcome :=
  match supportsLocalMode st.total_gpus vllmInstalled with
  | some reason => AcquireOutcome.error reason
  | none =>
    if st.total_gpus < tp * dp then
      AcquireOutcome.error (oversubscriptionMessage tp dp st.total_gpus)
    else if glmTooOld then
      AcquireOutcome.error glmTransformersMessage
    else
      let key := buildServerKey model tp dp gpu_mem max_len extra_args_json
      let spawnPath :=
        if st.local_max_concurrent_models ≤ st.servers.length then
          AcquireOutcome.blocked
        else
          match allocateGpus st (tp * dp) with
          | none => AcquireOutcome.blocked
          | some (ids, st₂) =>
            let port := st₂.next_port
            let handle : ServerHandle :=
              { key := key
                model := model
                base_url := "http://127.0.0.1:" ++ toString port ++ "/v1"
                port := port
                gpu_ids := ids
                processAlive := true
                log_path := ""
                ref_count := 1 }
            AcquireOutcome.ok
              { st₂ with servers := st₂.servers ++ [(key, handle)], next_port := port + 1 }
              handle true
      match lookupServer st key with
      | some existing =>
        if existing.processAlive then
          AcquireOutcome.ok (bumpServerRefCount st key)
            { existing with ref_count := existing.ref_count + 1 } false
        else spawnPath
      | none => spawnPath

/-- The teardown performed on the last release (lines 327-334): graceful
`terminate()`, then `wait(timeout=15)`, then `kill()` on expiry. -/
structure StopAction where
  graceSeconds : Nat
deriving DecidableEq, Repr

/-- `VLLMServerManager.release_server` (lines 311-334): decrement the
reference count; only at zero deregister, free the accelerator ids, wake
waiters (`notify_all`, not part of the state), and stop the process when it
is still alive. -/
def releaseServer (st : PoolState) (handle : ServerHandle) :
    PoolState × Option StopAction :=
  match lookupServer st handle.key with
  | none => (st, none)
  | some current =>
    if 0 < current.ref_count - 1 then
      (setServerRefCount st handle.key (current.ref_count - 1), none)
    else
      (releaseGpuIds
        { st with servers := st.servers.filter (fun kv => !(kv.1 == handle.key)) }
        current.gpu_ids,
       if current.processAlive then some { graceSeconds := 15 } else none)

/-! Concrete two-acquire/two-release scenario for C4: an empty pool with 2
accelerators and a 2-server ceiling. -/

def keyC4 : String := buildServerKey "org/model-a" 1 1 "0.9" "None" "[]"

def handleC4 : ServerHandle :=
  { key := keyC4
    model := "org/model-a"
    base_url := "http://127.0.0.1:8000/v1"
    port := 8000
    gpu_ids := [0]
    processAlive := true
    log_path := ""
    ref_count := 1 }

def poolC4₀ : PoolState :=
  { servers := []
    allocated_gpu_ids := []
    total_gpus := 2
    local_max_concurrent_models := 2
    next_port := 8000 }

def poolC4₁ : PoolState :=
  { servers := [(keyC4, handleC4)]
    allocated_gpu_ids := [0]
    total_gpus := 2
    local_max_concurrent_models := 2
    next_port := 8001 }

def handleC4₂ : ServerHandle := { handleC4 with ref_count := 2 }

def poolC4₂ : PoolState := { poolC4₁ with servers := [(keyC4, handleC4₂)] }

def poolC4End : PoolState :=
  { servers := []
    allocated_gpu_ids := []
    total_gpus := 2
    local_max_concurrent_models := 2
    next_port := 8001 }

/-! ## job_manager.py: `dismiss_job` (lines 979-999) and `get_job`
(lines 886-891) -/

/-- The in-memory registries of `JobManager` that `dismiss_job` touches:
`_jobs`, `_tasks` (the flag is `task.done()`), `_job_contexts` (job id to
run ids), `_cancel_events`, `_run_metrics`. -/
structure ManagerState where
  jobs : List (String × Job)
  tasks : List (String × Bool)
  contexts : List (String × List String)
  cancel_events : List String
  run_metrics : MetricsStore
deriving DecidableEq, Repr

/-- `JobManager.get_job` (the returned value is a deep copy; value
semantics here). -/
def getJob (st : ManagerState) (job_id : String) : Option Job :=
  st.jobs.lookup job_id

/-- `JobManager.dismiss_job`.  On-disk artifacts are not touched by the
Python code (and are not part of this state). -/
def dismissJob (st : ManagerState) (job_id : String) :
    ManagerState × Bool × Option String :=
  match st.jobs.lookup job_id with
  | none => (st, false, some "job not found")
  | some job =>
    if ¬(job.status = RunStatus.completed ∨ job.status = RunStatus.canceled) then
      (st, false, some "only completed or canceled jobs can be dismissed")
    else
      match st.tasks.lookup job_id with
      | some done =>
        if !done then (st, false, some "job is still running")
        else
          let runIds := (st.contexts.lookup job_id).getD []
          ({ jobs := st.jobs.filter (fun kv => !(kv.1 == job_id))
             tasks := st.tasks.filter (fun kv => !(kv.1 == job_id))
             contexts := st.contexts.filter (fun kv => !(kv.1 == job_id))
             cancel_events := st.cancel_events.filter (fun j => !(j == job_id))
             run_metrics := st.run_metrics.filter
               (fun kv => decide (kv.1 ∉ runIds.map (runMetricsKey job_id))) },
           true, none)
      | none =>
        let runIds := (st.contexts.lookup job_id).getD []
        ({ jobs := st.jobs.filter (fun kv => !(kv.1 == job_id))
           tasks := st.tasks.filter (fun kv => !(kv.1 == job_id))
           contexts := st.contexts.filter (fun kv => !(kv.1 == job_id))
           cancel_events := st.cancel_events.filter (fun j => !(j == job_id))
           run_metrics := st.run_metrics.filter
             (fun kv => decide (kv.1 ∉ runIds.map (runMetricsKey job_id))) },
         true, none)

/-- A canceled job whose executor task has not finished (reachable:
`cancel_job` marks the job canceled immediately while the run executors are
still converging). -/
def jobC9canceled : Job :=
  { job_id := "job-c"
    status := RunStatus.canceled
    created_at := "2026-02-08T00:00:00+00:00"
    total_pages_all_models := 1
    completed_pages_all_models := 0
    models := [{ run_id := "m:1", status := RunStatus.canceled,
                 total_pages := 1, completed_pages := 0 }] }

/-- The manager state for the C9 counterexample: job canceled, task not yet
done. -/
def managerStateC9 : ManagerState :=
  { jobs := [("job-c", jobC9canceled)]
    tasks := [("job-c", false)]
    contexts := [("job-c", ["m:1"])]
    cancel_events := ["job-c"]
    run_metrics := [(runMetricsKey "job-c" "m:1", newMetrics)] }

/-- A completed job with a finished executor task (for the C9 witness). -/
def jobC9completed : Job :=
  { job_id := "job-d"
    status := RunStatus.completed
    created_at := "2026-02-08T00:00:00+00:00"
    total_pages_all_models := 1
    completed_pages_all_models := 1
    models := [{ run_id := "m:1", status := RunStatus.completed,
                 total_pages := 1, completed_pages := 1 }] }

def managerStateC9ok : ManagerState :=
  { jobs := [("job-d", jobC9completed)]
    tasks := [("job-d", true)]
    contexts := [("job-d", ["m:1"])]
    cancel_events := ["job-d"]
    run_metrics := [(runMetricsKey "job-d" "m:1", newMetrics)] }

end Tracr

namespace Tracr

/-! # Theorems -/

/-- C2: once all Run Executors of a job have finished, the final job status
computed by `_run_job` from the ModelRun statuses follows, in this order:
cancellation requested and all runs canceled → canceled; any run failed →
completed when at least one run completed, else failed; all runs completed →
completed; any run still running → running; otherwise failed. -/
theorem final_job_status_cases (cancelRequested : Bool) (runs : List RunStatus) :
    finalJobStatus cancelRequested runs =
      if cancelRequested = true ∧ ∀ r ∈ runs, r = RunStatus.canceled then
        RunStatus.canceled
      else if ∃ r ∈ runs, r = RunStatus.failed then
        if ∃ r ∈ runs, r = RunStatus.completed then RunStatus.completed else RunStatus.failed
      else if ∀ r ∈ runs, r = RunStatus.completed then
        RunStatus.completed
      else if ∃ r ∈ runs, r = RunStatus.running then
        RunStatus.running
      else
        RunStatus.failed := by
  have hA : ((cancelRequested && runs.all (· == RunStatus.canceled)) = true) ↔
      (cancelRequested = true ∧ ∀ r ∈ runs, r = RunStatus.canceled) := by
    simp [List.all_eq_true]
  have hB : (runs.any (· == RunStatus.failed) = true) ↔
      (∃ r ∈ runs, r = RunStatus.failed) := by
    simp [List.any_eq_true]
  have hC : (runs.any (· == RunStatus.completed) = true) ↔
      (∃ r ∈ runs, r = RunStatus.completed) := by
    simp [List.any_eq_true]
  have hD : (runs.all (· == RunStatus.completed) = true) ↔
      (∀ r ∈ runs, r = RunStatus.completed) := by
    simp [List.all_eq_true]
  have hE : (runs.any (· == RunStatus.running) = true) ↔
      (∃ r ∈ runs, r = RunStatus.running) := by
    simp [List.any_eq_true]
  simp only [finalJobStatus]
  exact if_congr hA rfl
    (if_congr hB (if_congr hC rfl rfl)
      (if_congr hD rfl (if_congr hE rfl rfl)))

/-- C10: the token-usage triple derived from a provider usage payload has all
three components non-negative; input tokens come from `prompt_tokens` with
`input_tokens` as fallback and output tokens from `completion_tokens` with
`output_tokens` as fallback; when the provider-reported `total_tokens` is
missing or not positive, the total is the (clamped) sum of input and output
tokens, otherwise the provider total; and a missing or empty usage payload
yields the all-zero triple. -/
theorem token_usage_from_provider_usage_spec (usage : Option ProviderUsage) :
    (0 ≤ (tokenUsageFromProviderUsage usage).input_tokens ∧
      0 ≤ (tokenUsageFromProviderUsage usage).output_tokens ∧
      0 ≤ (tokenUsageFromProviderUsage usage).total_tokens) ∧
    (usage = none → tokenUsageFromProviderUsage usage = ⟨0, 0, 0⟩) ∧
    (usage = some ⟨none, none, none, none, none⟩ →
      tokenUsageFromProviderUsage usage = ⟨0, 0, 0⟩) ∧
    (∀ u, usage = some u →
      (tokenUsageFromProviderUsage usage).input_tokens = max 0 (rawInputTokens u) ∧
      (tokenUsageFromProviderUsage usage).output_tokens = max 0 (rawOutputTokens u) ∧
      (u.total_tokens.getD 0 ≤ 0 →
        (tokenUsageFromProviderUsage usage).total_tokens =
          max 0 (rawInputTokens u + rawOutputTokens u)) ∧
      (0 < u.total_tokens.getD 0 →
        (tokenUsageFromProviderUsage usage).total_tokens = u.total_tokens.getD 0)) := by
  refine ⟨?_, ?_, ?_, ?_⟩
  · cases usage with
    | none => simp [tokenUsageFromProviderUsage, newTokenUsage]
    | some u =>
      simp only [tokenUsageFromProviderUsage]
      refine ⟨le_max_left 0 _, le_max_left 0 _, le_max_left 0 _⟩
  · rintro rfl; rfl
  · rintro rfl; rfl
  · rintro u rfl
    refine ⟨rfl, rfl, ?_, ?_⟩
    · intro h
      simp only [tokenUsageFromProviderUsage, h, if_pos]
    · intro h
      have h' : ¬ u.total_tokens.getD 0 ≤ 0 := not_le.mpr h
      simp only [tokenUsageFromProviderUsage, h', if_neg, not_false_iff]
      omega

/-- Witness for C10 at the concrete payload of
`test_token_usage_extraction_handles_openai_shape`:
`{prompt_tokens: 120, completion_tokens: 45, total_tokens: 165}`. -/
theorem token_usage_from_provider_usage_spec_witness :
    (0 : Int) < (some (165 : Int)).getD 0 ∧
      (tokenUsageFromProviderUsage
          (some ⟨some 120, none, some 45, none, some 165⟩)).total_tokens =
        (some (165 : Int)).getD 0 :=
  ⟨by decide,
    ((token_usage_from_provider_usage_spec
          (some ⟨some 120, none, some 45, none, some 165⟩)).2.2.2
        ⟨some 120, none, some 45, none, some 165⟩ rfl).2.2.2 (by decide)⟩

/-- C1 (code evaluated at the failing input): writing job metadata while a
metadata file already exists at the target path is NOT a read-merge-write.
At the scenario of `test_job_metadata_merges_existing_runs_for_reused_job_id`
(existing run `model-a:1` with usage {10, 20, 30} and 2/2 pages; in-memory
run `model-b:1` with usage {5, 7, 12} and 1/3 pages) the written file keeps
only the in-memory run, replaces the existing `created_at`, and carries the
in-memory totals 3/1 and usage {5, 7, 12} — not the merged run set, the
preserved `created_at`, totals 5/3, and usage {15, 27, 42} that the claim
(and the repository's own test) require. -/
theorem persist_job_metadata_overwrites_on_job_id_reuse :
    (jobMetadataFileAfterPersist (some existingJobFileC1) metricsStoreC1
        inMemoryJobC1 0).models.map ModelRun.run_id = ["model-b:1"] ∧
    (jobMetadataFileAfterPersist (some existingJobFileC1) metricsStoreC1
        inMemoryJobC1 0).created_at = "2026-02-08T00:00:00+00:00" ∧
    (jobMetadataFileAfterPersist (some existingJobFileC1) metricsStoreC1
        inMemoryJobC1 0).created_at ≠ existingJobFileC1.created_at ∧
    (jobMetadataFileAfterPersist (some existingJobFileC1) metricsStoreC1
        inMemoryJobC1 0).total_pages_all_models = 3 ∧
    (jobMetadataFileAfterPersist (some existingJobFileC1) metricsStoreC1
        inMemoryJobC1 0).completed_pages_all_models = 1 ∧
    (jobMetadataFileAfterPersist (some existingJobFileC1) metricsStoreC1
        inMemoryJobC1 0).statistics.token_usage =
      { input_tokens := 5, output_tokens := 7, total_tokens := 12 } := by
  refine ⟨rfl, rfl, by decide, rfl, rfl, by decide⟩

/-- Helper: the persisted pages list is ascending by page number. -/
theorem sortPagesByPageNumber_pairwise_le (pages : List PageRecord) :
    (sortPagesByPageNumber pages).Pairwise
      (fun a b => a.page_number ≤ b.page_number) := by
  have h := @List.sorted_mergeSort PageRecord
    (fun a b : PageRecord => decide (a.page_number ≤ b.page_number))
    (fun a b c hab hbc => by
      simp only [decide_eq_true_eq] at *
      omega)
    (fun a b => by
      simp only [Bool.or_eq_true, decide_eq_true_eq]
      omega)
    pages
  exact h.imp (fun hab => by simpa using hab)

/-- Helper: the persisted pages list is a permutation of the in-memory one. -/
theorem sortPagesByPageNumber_perm (pages : List PageRecord) :
    (sortPagesByPageNumber pages).Perm pages :=
  List.mergeSort_perm pages _

/-- Helper: two ascending lists of page records that are permutations of each
other and have pairwise-distinct page numbers are equal. -/
theorem eq_of_perm_of_pairwise_le_of_nodup {l₁ l₂ : List PageRecord}
    (hperm : l₁.Perm l₂)
    (h₁ : l₁.Pairwise (fun a b => a.page_number ≤ b.page_number))
    (h₂ : l₂.Pairwise (fun a b => a.page_number ≤ b.page_number))
    (hnd : (l₂.map PageRecord.page_number).Nodup) : l₁ = l₂ := by
  haveI : IsAntisymm PageRecord (fun a b => a.page_number < b.page_number) :=
    ⟨fun a b hab hba => absurd hba (Nat.lt_asymm hab)⟩
  have hnd₁ : (l₁.map PageRecord.page_number).Nodup :=
    ((hperm.map PageRecord.page_number).nodup_iff).mpr hnd
  have hne₁ : l₁.Pairwise (fun a b => a.page_number ≠ b.page_number) :=
    List.pairwise_map.mp hnd₁
  have hne₂ : l₂.Pairwise (fun a b => a.page_number ≠ b.page_number) :=
    List.pairwise_map.mp hnd
  have hlt₁ : l₁.Pairwise (fun a b => a.page_number < b.page_number) :=
    (h₁.and hne₁).imp (fun hab => lt_of_le_of_ne hab.1 hab.2)
  have hlt₂ : l₂.Pairwise (fun a b => a.page_number < b.page_number) :=
    (h₂.and hne₂).imp (fun hab => lt_of_le_of_ne hab.1 hab.2)
  exact List.eq_of_perm_of_sorted hperm hlt₁ hlt₂

/-- C7: every persisted per-document metadata snapshot writes its `pages`
array in ascending page-number order: the written array is an ascending
permutation of the in-memory page records, and (page numbers being distinct)
any two completion orders of the same records persist the identical array. -/
theorem persist_pdf_metadata_pages_sorted (existing : Option PdfMetadataPayload)
    (now source_pdf pdf_slug : String) (page_count : Int)
    (pages : List PageRecord) (started_at ended_at : Option String) :
    (persistPdfMetadata existing now source_pdf pdf_slug page_count pages
        started_at ended_at).pages.Pairwise
      (fun a b => a.page_number ≤ b.page_number) ∧
    (persistPdfMetadata existing now source_pdf pdf_slug page_count pages
        started_at ended_at).pages.Perm pages ∧
    (∀ pages₂ : List PageRecord, pages₂.Perm pages →
      (pages.map PageRecord.page_number).Nodup →
      (persistPdfMetadata existing now source_pdf pdf_slug page_count pages₂
          started_at ended_at).pages =
        (persistPdfMetadata existing now source_pdf pdf_slug page_count pages
            started_at ended_at).pages) := by
  refine ⟨sortPagesByPageNumber_pairwise_le pages,
    sortPagesByPageNumber_perm pages, ?_⟩
  intro pages₂ hperm hnd
  have hperm' : (sortPagesByPageNumber pages₂).Perm (sortPagesByPageNumber pages) :=
    ((sortPagesByPageNumber_perm pages₂).trans hperm).trans
      (sortPagesByPageNumber_perm pages).symm
  have hnd' : ((sortPagesByPageNumber pages).map PageRecord.page_number).Nodup :=
    (((sortPagesByPageNumber_perm pages).map PageRecord.page_number).nodup_iff).mpr hnd
  exact eq_of_perm_of_pairwise_le_of_nodup hperm'
    (sortPagesByPageNumber_pairwise_le pages₂)
    (sortPagesByPageNumber_pairwise_le pages) hnd'

/-- Witness for C7: records for pages 1 and 2, submitted in order but
completing as [2, 1], persist exactly as the persisted array of the
in-order completion [1, 2]. -/
theorem persist_pdf_metadata_pages_sorted_witness :
    ([samplePageRecord 2, samplePageRecord 1].Perm
        [samplePageRecord 1, samplePageRecord 2]) ∧
      (([samplePageRecord 1, samplePageRecord 2].map
          PageRecord.page_number).Nodup) ∧
      (persistPdfMetadata none "2026-02-08T00:00:00+00:00" "/tmp/sample.pdf"
            "sample" 2 [samplePageRecord 2, samplePageRecord 1] none none).pages =
        (persistPdfMetadata none "2026-02-08T00:00:00+00:00" "/tmp/sample.pdf"
            "sample" 2 [samplePageRecord 1, samplePageRecord 2] none none).pages :=
  ⟨by decide, by decide,
    (persist_pdf_metadata_pages_sorted none "2026-02-08T00:00:00+00:00"
          "/tmp/sample.pdf" "sample" 2
          [samplePageRecord 1, samplePageRecord 2] none none).2.2
      [samplePageRecord 2, samplePageRecord 1] (by decide) (by decide)⟩

/-! ### Dispatch-loop helper lemmas -/

/-- Helper: refilling never pushes `pending` above the concurrency bound. -/
theorem refillAux_pending_le (m : Nat) (rem : List Nat) :
    ∀ pend : List Nat, pend.length ≤ m → (refillAux m rem pend).2.length ≤ m := by
  induction rem with
  | nil => intro pend h; simpa [refillAux] using h
  | cons page rest ih =>
    intro pend h
    simp only [refillAux]
    by_cases hlt : pend.length < m
    · rw [if_pos hlt]
      have hlen : (pend ++ [page]).length ≤ m := by
        simp only [List.length_append, List.length_cons, List.length_nil]
        omega
      exact ih (pend ++ [page]) hlen
    · rw [if_neg hlt]
      exact h

/-- Helper: refilling moves pages between `remaining` and `pending`. -/
theorem refillAux_perm (m : Nat) (rem : List Nat) :
    ∀ pend : List Nat,
      ((refillAux m rem pend).1 ++ (refillAux m rem pend).2).Perm (rem ++ pend) := by
  induction rem with
  | nil => intro pend; simp [refillAux]
  | cons page rest ih =>
    intro pend
    simp only [refillAux]
    by_cases hlt : pend.length < m
    · rw [if_pos hlt]
      refine (ih (pend ++ [page])).trans ?_
      have e1 : rest ++ (pend ++ [page]) = (rest ++ pend) ++ [page] :=
        (List.append_assoc rest pend [page]).symm
      rw [e1]
      exact List.perm_append_comm.trans (List.Perm.refl _)
    · rw [if_neg hlt]

/-- Helper: refilling preserves the total number of unfinished pages. -/
theorem refillAux_sum (m : Nat) (rem pend : List Nat) :
    (refillAux m rem pend).1.length + (refillAux m rem pend).2.length =
      rem.length + pend.length := by
  have h := (refillAux_perm m rem pend).length_eq
  simpa [List.length_append] using h

/-- Helper: with a positive concurrency bound, the refill loop leaves
`pending` empty only when the iterator is exhausted. -/
theorem refillAux_empty (m : Nat) (hm : 1 ≤ m) (rem : List Nat) :
    ∀ pend : List Nat, (refillAux m rem pend).2 = [] → (refillAux m rem pend).1 = [] := by
  induction rem with
  | nil => intro pend _; simp [refillAux]
  | cons page rest ih =>
    intro pend h
    simp only [refillAux] at h ⊢
    by_cases hlt : pend.length < m
    · rw [if_pos hlt] at h ⊢
      exact ih _ h
    · rw [if_neg hlt] at h
      exfalso
      apply hlt
      have hp : pend = [] := h
      rw [hp]
      simpa using hm

theorem refill_pending_le (m : Nat) (cxl : Bool) (s : DispatchState)
    (h : s.pending.length ≤ m) : (refill m cxl s).pending.length ≤ m := by
  simp only [refill]
  split
  · exact h
  · exact refillAux_pending_le m s.remaining s.pending h

theorem refill_contents_perm (m : Nat) (cxl : Bool) (s : DispatchState) :
    ((refill m cxl s).remaining ++ (refill m cxl s).pending ++
        (refill m cxl s).outcomes).Perm
      (s.remaining ++ s.pending ++ s.outcomes) := by
  simp only [refill]
  split
  · exact List.Perm.refl _
  · exact List.Perm.append_right s.outcomes (refillAux_perm m s.remaining s.pending)

theorem refill_sum (m : Nat) (cxl : Bool) (s : DispatchState) :
    (refill m cxl s).remaining.length + (refill m cxl s).pending.length =
      s.remaining.length + s.pending.length := by
  simp only [refill]
  split
  · rfl
  · exact refillAux_sum m s.remaining s.pending

theorem refill_empty (m : Nat) (hm : 1 ≤ m) (s : DispatchState)
    (h : (refill m false s).pending = []) : (refill m false s).remaining = [] := by
  simp only [refill, Bool.false_eq_true, if_false] at h ⊢
  exact refillAux_empty m hm s.remaining s.pending h

theorem refill_outcomes (m : Nat) (cxl : Bool) (s : DispatchState) :
    (refill m cxl s).outcomes = s.outcomes := by
  simp only [refill]
  split <;> rfl

/-- Helper: an element of a list can be split off by its index. -/
theorem perm_getD_cons_eraseIdx :
    ∀ (l : List Nat) (i : Nat), i < l.length → l.Perm (l.getD i 0 :: l.eraseIdx i)
  | [], i, h => by simp at h
  | a :: l, 0, _ => by simp
  | a :: l, i + 1, h => by
    have ih := perm_getD_cons_eraseIdx l i (by simpa using h)
    simp only [List.getD_cons_succ, List.eraseIdx_cons_succ]
    exact (ih.cons a).trans (List.Perm.swap _ _ _)

theorem completeOne_remaining (pick : Nat) (s : DispatchState) :
    (completeOne pick s).remaining = s.remaining := by
  simp only [completeOne]
  split <;> rfl

theorem completeOne_pending_le (pick : Nat) (s : DispatchState) :
    (completeOne pick s).pending.length ≤ s.pending.length := by
  simp only [completeOne]
  split
  · exact le_refl _
  · rename_i h
    have hi : pick % s.pending.length < s.pending.length :=
      Nat.mod_lt _ (Nat.pos_of_ne_zero h)
    simp only [List.length_eraseIdx, hi, if_pos]
    omega

theorem completeOne_pending_length (pick : Nat) (s : DispatchState)
    (h : s.pending.length ≠ 0) :
    (completeOne pick s).pending.length = s.pending.length - 1 := by
  simp only [completeOne, if_neg h]
  have hi : pick % s.pending.length < s.pending.length :=
    Nat.mod_lt _ (Nat.pos_of_ne_zero h)
  simp [List.length_eraseIdx, hi]

theorem completeOne_contents_perm (pick : Nat) (s : DispatchState)
    (h : s.pending.length ≠ 0) :
    ((completeOne pick s).remaining ++ (completeOne pick s).pending ++
        (completeOne pick s).outcomes).Perm
      (s.remaining ++ s.pending ++ s.outcomes) := by
  simp only [completeOne, if_neg h]
  have hi : pick % s.pending.length < s.pending.length :=
    Nat.mod_lt _ (Nat.pos_of_ne_zero h)
  have hp := perm_getD_cons_eraseIdx s.pending _ hi
  have key : (s.pending.eraseIdx (pick % s.pending.length) ++
      (s.outcomes ++ [s.pending.getD (pick % s.pending.length) 0])).Perm
      (s.pending ++ s.outcomes) := by
    refine List.Perm.trans ?_ (List.Perm.append_right s.outcomes hp.symm)
    have e1 : s.pending.eraseIdx (pick % s.pending.length) ++
        (s.outcomes ++ [s.pending.getD (pick % s.pending.length) 0]) =
        (s.pending.eraseIdx (pick % s.pending.length) ++ s.outcomes) ++
          [s.pending.getD (pick % s.pending.length) 0] :=
      (List.append_assoc _ _ _).symm
    rw [e1]
    exact List.perm_append_comm.trans (List.Perm.refl _)
  rw [List.append_assoc, List.append_assoc]
  exact List.Perm.append_left s.remaining key

/-- Helper: the in-flight bound holds at every state of the dispatch loop. -/
theorem dispatchTrace_pending_le (m : Nat) (sched : List (Bool × Nat)) :
    ∀ s : DispatchState, s.pending.length ≤ m →
      ∀ t ∈ dispatchTrace m sched s, t.pending.length ≤ m := by
  induction sched with
  | nil =>
    intro s hs t ht
    simp only [dispatchTrace, List.mem_singleton] at ht
    subst ht
    exact hs
  | cons ev rest ih =>
    obtain ⟨cxl, pick⟩ := ev
    intro s hs t ht
    simp only [dispatchTrace] at ht
    by_cases hemp : (refill m cxl s).pending.isEmpty
    · rw [if_pos hemp] at ht
      rcases (by simpa using ht : t = s ∨ t = refill m cxl s) with rfl | rfl
      · exact hs
      · exact refill_pending_le m cxl s hs
    · rw [if_neg hemp] at ht
      simp only [List.mem_cons] at ht
      rcases ht with rfl | rfl | ht
      · exact hs
      · exact refill_pending_le m cxl s hs
      · exact ih (completeOne pick (refill m cxl s))
          (le_trans (completeOne_pending_le pick (refill m cxl s))
            (refill_pending_le m cxl s hs)) t ht

/-- Helper: a long enough cancellation-free schedule drains the loop and
records every page exactly once. -/
theorem runDispatch_complete (m : Nat) (hm : 1 ≤ m) (sched : List (Bool × Nat)) :
    ∀ s : DispatchState, (∀ ev ∈ sched, ev.1 = false) →
      s.remaining.length + s.pending.length ≤ sched.length →
      (runDispatch m sched s).remaining = [] ∧
        (runDispatch m sched s).pending = [] ∧
        (runDispatch m sched s).outcomes.Perm
          (s.remaining ++ s.pending ++ s.outcomes) := by
  induction sched with
  | nil =>
    intro s _ hlen
    simp only [runDispatch]
    simp only [List.length_nil] at hlen
    have h1 : s.remaining = [] := List.eq_nil_of_length_eq_zero (by omega)
    have h2 : s.pending = [] := List.eq_nil_of_length_eq_zero (by omega)
    refine ⟨h1, h2, ?_⟩
    rw [h1, h2]
    simp
  | cons ev rest ih =>
    obtain ⟨cxl, pick⟩ := ev
    intro s hall hlen
    have hcxl : cxl = false := hall (cxl, pick) (List.mem_cons_self _ _)
    subst hcxl
    simp only [runDispatch]
    by_cases hemp : (refill m false s).pending.isEmpty
    · rw [if_pos hemp]
      have hpend : (refill m false s).pending = [] := by
        simpa [List.isEmpty_iff] using hemp
      have hrem : (refill m false s).remaining = [] := refill_empty m hm s hpend
      refine ⟨hrem, hpend, ?_⟩
      have hperm := refill_contents_perm m false s
      rw [hrem, hpend, refill_outcomes] at hperm
      · simpa using hperm
    · rw [if_neg hemp]
      have hpne : (refill m false s).pending.length ≠ 0 := by
        intro h0
        exact hemp (by simpa [List.isEmpty_iff] using List.eq_nil_of_length_eq_zero h0)
      have hsum := refill_sum m false s
      have hlen2 : (completeOne pick (refill m false s)).remaining.length +
          (completeOne pick (refill m false s)).pending.length ≤ rest.length := by
        rw [completeOne_remaining, completeOne_pending_length pick _ hpne]
        simp only [List.length_cons] at hlen
        omega
      obtain ⟨h1, h2, h3⟩ := ih (completeOne pick (refill m false s))
        (fun e he => hall e (List.mem_cons_of_mem _ he)) hlen2
      refine ⟨h1, h2, ?_⟩
      exact (h3.trans (completeOne_contents_perm pick (refill m false s) hpne)).trans
        (refill_contents_perm m false s)

/-- C3: at every state of the page-dispatch loop the number of in-flight
page requests is at most `max_concurrent_requests`, and a cancellation-free
schedule long enough to finish every page yields exactly one outcome record
per page (the recorded pages are a permutation of the submitted pages). -/
theorem dispatch_loop_bounded_and_exhaustive (maxConcurrent : Nat)
    (pages : List Nat) (sched : List (Bool × Nat)) (hmax : 1 ≤ maxConcurrent) :
    (∀ t ∈ dispatchTrace maxConcurrent sched { remaining := pages, pending := [], outcomes := [] },
        t.pending.length ≤ maxConcurrent) ∧
    ((∀ ev ∈ sched, ev.1 = false) → pages.length ≤ sched.length →
      (runDispatch maxConcurrent sched
          { remaining := pages, pending := [], outcomes := [] }).outcomes.Perm pages) := by
  constructor
  · exact dispatchTrace_pending_le maxConcurrent sched
      { remaining := pages, pending := [], outcomes := [] } (by simp)
  · intro hall hlen
    have h := runDispatch_complete maxConcurrent hmax sched
      { remaining := pages, pending := [], outcomes := [] } hall (by simpa using hlen)
    simpa using h.2.2

/-- Witness for C3: `max_concurrent_requests = 3` and 10 pages — every
traced state keeps at most 3 requests in flight (from the first conjunct)
and the loop records exactly the 10 pages. -/
theorem dispatch_loop_bounded_and_exhaustive_witness :
    1 ≤ 3 ∧
    (runDispatch 3 (List.replicate 10 (false, 0))
        { remaining := [1, 2, 3, 4, 5, 6, 7, 8, 9, 10], pending := [], outcomes := [] }).outcomes.Perm
      [1, 2, 3, 4, 5, 6, 7, 8, 9, 10] :=
  ⟨by decide,
    (dispatch_loop_bounded_and_exhaustive 3 [1, 2, 3, 4, 5, 6, 7, 8, 9, 10]
        (List.replicate 10 (false, 0)) (by decide)).2 (by decide) (by decide)⟩

/-- C6: an exception from a single page request does not abort the run — the
page becomes a failed outcome (error captured, placeholder text, record
status "failed") and the loop still produces one record per page; while an
exception escaping the run control flow marks the run failed with the
captured message. -/
theorem page_failure_isolated_run_failure_propagated :
    (∀ (n : Nat) (t : ℚ) (e : String),
      (processPageOcrRequest n t (Except.error e)).error_text = some e ∧
      (processPageOcrRequest n t (Except.error e)).markdown_text =
        "<!-- OCR failed for page " ++ toString n ++ ": " ++ e ++ " -->\n" ∧
      (pageRecordOfOutcome (processPageOcrRequest n t (Except.error e))).status = "failed" ∧
      (pageRecordOfOutcome (processPageOcrRequest n t (Except.error e))).error = some e) ∧
    (∀ (maxConcurrent : Nat) (pages : List Nat) (sched : List (Bool × Nat))
        (results : Nat → Except String OCRPageResult) (t : ℚ),
      1 ≤ maxConcurrent → (∀ ev ∈ sched, ev.1 = false) → pages.length ≤ sched.length →
      ((runDispatch maxConcurrent sched
            { remaining := pages, pending := [], outcomes := [] }).outcomes.map
          (fun q => pageRecordOfOutcome (processPageOcrRequest q t (results q)))).Perm
        (pages.map (fun q => pageRecordOfOutcome (processPageOcrRequest q t (results q))))) ∧
    (∀ exc : String, runSingleModelFinalStatus (Except.error exc) =
      (RunStatus.failed, some exc)) := by
  refine ⟨?_, ?_, ?_⟩
  · intro n t e
    exact ⟨rfl, rfl, rfl, rfl⟩
  · intro mC pages sched results t hm hall hlen
    have h := runDispatch_complete mC hm sched
      { remaining := pages, pending := [], outcomes := [] } hall (by simpa using hlen)
    have hperm : (runDispatch mC sched
        { remaining := pages, pending := [], outcomes := [] }).outcomes.Perm pages := by
      simpa using h.2.2
    exact hperm.map _
  · intro exc
    rfl

/-! ### Retry-loop helper lemmas -/

/-- Helper: a retryable attempt records the error, sleeps (when not the last
attempt), and moves on to the next attempt. -/
theorem ocrPageLoop_retryable_step {model base_url : String}
    {responses : Nat → AttemptOutcome} {retries attempt : Nat}
    {restAttempts : List Nat} {lastError : Option String} {sleeps : List Nat}
    (h : isRetryableOutcome (responses attempt) = true) :
    ocrPageLoop model base_url responses retries (attempt :: restAttempts) lastError sleeps =
      ocrPageLoop model base_url responses retries restAttempts
        (some (outcomeMessage (responses attempt)))
        (if attempt < retries then sleeps ++ [backoffSleep attempt] else sleeps) := by
  cases hr : responses attempt with
  | success r =>
    rw [hr] at h
    simp [isRetryableOutcome] at h
  | connectionError e =>
    simp [ocrPageLoop, hr, outcomeMessage]
  | statusError code e =>
    have hc : code ∈ retryableStatusCodes := by
      rw [hr] at h
      simpa [isRetryableOutcome] using h
    simp [ocrPageLoop, hr, outcomeMessage, hc]

/-- Witness for C6: two pages with concurrency 1 where page 1 raises and
page 2 succeeds — a record is still produced for both pages. -/
theorem page_failure_isolated_run_failure_propagated_witness :
    1 ≤ 1 ∧
    ((runDispatch 1 [(false, 0), (false, 0)]
          { remaining := [1, 2], pending := [], outcomes := [] }).outcomes.map
        (fun q => pageRecordOfOutcome (processPageOcrRequest q 0 (sampleResultsC6 q)))).Perm
      ([1, 2].map (fun q => pageRecordOfOutcome (processPageOcrRequest q 0 (sampleResultsC6 q)))) :=
  ⟨by decide,
    page_failure_isolated_run_failure_propagated.2.1 1 [1, 2] [(false, 0), (false, 0)]
      sampleResultsC6 0 (by decide) (by decide) (by decide)⟩

/-- C8: with the default attempt ceiling of 4, the page request executor
retries only on connection/timeout errors and on the allow-listed status
codes, sleeping `min(2^attempt, 15)` seconds between attempts; a success at
attempt k returns the provider result with attempt count k; a non-retryable
status code fails immediately — the result is fixed by the attempts up to
that point; and when every attempt fails retryably the final error wraps the
last underlying error in a message naming the model and the endpoint, after
sleeping 2, 4, and 8 seconds between the four attempts. -/
theorem ocr_page_retry_policy (model base_url : String)
    (responses : Nat → AttemptOutcome) :
    (∀ k r, 1 ≤ k → k ≤ 4 →
      (∀ j, 1 ≤ j → j < k → isRetryableOutcome (responses j) = true) →
      responses k = AttemptOutcome.success r →
      ocrPage model base_url responses 4 =
        (Except.ok { r with attempts := k },
          (List.range' 1 (k - 1)).map backoffSleep)) ∧
    (∀ k code e, 1 ≤ k → k ≤ 4 →
      (∀ j, 1 ≤ j → j < k → isRetryableOutcome (responses j) = true) →
      responses k = AttemptOutcome.statusError code e →
      code ∉ retryableStatusCodes →
      ocrPage model base_url responses 4 =
        (Except.error (OcrPageError.statusRaise code e),
          (List.range' 1 (k - 1)).map backoffSleep) ∧
      (∀ responses₂ : Nat → AttemptOutcome,
        (∀ j, j ≤ k → responses₂ j = responses j) →
        ocrPage model base_url responses₂ 4 = ocrPage model base_url responses 4)) ∧
    ((∀ j, 1 ≤ j → j ≤ 4 → isRetryableOutcome (responses j) = true) →
      ocrPage model base_url responses 4 =
        (Except.error (OcrPageError.finalFailure
          (ocrFailureMessage model base_url (outcomeMessage (responses 4)))),
          [2, 4, 8])) ∧
    (∀ attempt, backoffSleep attempt = min (2 ^ attempt) 15) := by
  have hrange : List.range' 1 4 = [1, 2, 3, 4] := rfl
  refine ⟨?_, ?_, ?_, fun _ => rfl⟩
  · intro k r hk1 hk4 hj hk
    interval_cases k
    · simp only [ocrPage, hrange]
      simp [ocrPageLoop, hk, List.range']
    · simp only [ocrPage, hrange]
      rw [ocrPageLoop_retryable_step (hj 1 (by decide) (by decide))]
      simp [ocrPageLoop, hk, List.range']
    · simp only [ocrPage, hrange]
      rw [ocrPageLoop_retryable_step (hj 1 (by decide) (by decide)),
        ocrPageLoop_retryable_step (hj 2 (by decide) (by decide))]
      simp [ocrPageLoop, hk, List.range']
    · simp only [ocrPage, hrange]
      rw [ocrPageLoop_retryable_step (hj 1 (by decide) (by decide)),
        ocrPageLoop_retryable_step (hj 2 (by decide) (by decide)),
        ocrPageLoop_retryable_step (hj 3 (by decide) (by decide))]
      simp [ocrPageLoop, hk, List.range']
  · intro k code e hk1 hk4 hj hk hcode
    have habort : ∀ responses₃ : Nat → AttemptOutcome,
        (∀ j, 1 ≤ j → j < k → isRetryableOutcome (responses₃ j) = true) →
        responses₃ k = AttemptOutcome.statusError code e →
        ocrPage model base_url responses₃ 4 =
          (Except.error (OcrPageError.statusRaise code e),
            (List.range' 1 (k - 1)).map backoffSleep) := by
      intro responses₃ hj₃ hk₃
      interval_cases k
      · simp only [ocrPage, hrange]
        simp [ocrPageLoop, hk₃, hcode, List.range']
      · simp only [ocrPage, hrange]
        rw [ocrPageLoop_retryable_step (hj₃ 1 (by decide) (by decide))]
        simp [ocrPageLoop, hk₃, hcode, List.range']
      · simp only [ocrPage, hrange]
        rw [ocrPageLoop_retryable_step (hj₃ 1 (by decide) (by decide)),
          ocrPageLoop_retryable_step (hj₃ 2 (by decide) (by decide))]
        simp [ocrPageLoop, hk₃, hcode, List.range']
      · simp only [ocrPage, hrange]
        rw [ocrPageLoop_retryable_step (hj₃ 1 (by decide) (by decide)),
          ocrPageLoop_retryable_step (hj₃ 2 (by decide) (by decide)),
          ocrPageLoop_retryable_step (hj₃ 3 (by decide) (by decide))]
        simp [ocrPageLoop, hk₃, hcode, List.range']
    refine ⟨habort responses hj hk, ?_⟩
    intro responses₂ hagree
    rw [habort responses hj hk]
    refine habort responses₂ ?_ ?_
    · intro j hj1 hjk
      rw [hagree j (le_of_lt hjk)]
      exact hj j hj1 hjk
    · rw [hagree k (le_refl k)]
      exact hk
  · intro hall
    simp only [ocrPage, hrange]
    rw [ocrPageLoop_retryable_step (hall 1 (by decide) (by decide)),
      ocrPageLoop_retryable_step (hall 2 (by decide) (by decide)),
      ocrPageLoop_retryable_step (hall 3 (by decide) (by decide)),
      ocrPageLoop_retryable_step (hall 4 (by decide) (by decide))]
    simp [ocrPageLoop, backoffSleep]

/-- Witness for C8: every attempt raises a connection error, so the default
four attempts are made, the backoff sleeps are [2, 4, 8], and the final
error wraps the last underlying error naming model and endpoint. -/
theorem ocr_page_retry_policy_witness :
    ocrPage "org/model-a" "http://host/v1" (fun _ => AttemptOutcome.connectionError "refused") 4 =
      (Except.error (OcrPageError.finalFailure
        (ocrFailureMessage "org/model-a" "http://host/v1" "refused")), [2, 4, 8]) :=
  (ocr_page_retry_policy "org/model-a" "http://host/v1"
      (fun _ => AttemptOutcome.connectionError "refused")).2.2.1
    (fun _ _ _ => rfl)

/-! ### Association-list helper lemmas -/

/-- Helper: updating the entry at `key` is seen by a lookup of `key`. -/
theorem lookup_map_update {β : Type} (l : List (String × β)) (key : String) (f : β → β) :
    (l.map (fun kv => if kv.1 = key then (kv.1, f kv.2) else kv)).lookup key =
      (l.lookup key).map f := by
  induction l with
  | nil => rfl
  | cons hd tl ih =>
    obtain ⟨a, b⟩ := hd
    by_cases ha : a = key
    · subst ha
      simp [List.lookup_cons]
    · have h1 : (key == a) = false := by
        rw [beq_eq_false_iff_ne]
        exact fun h => ha h.symm
      simp only [List.map_cons, if_neg ha, List.lookup_cons, h1]
      exact ih

/-- Helper: entries whose key fails the filter predicate disappear from
lookups. -/
theorem lookup_filter_prop {β : Type} (l : List (String × β)) (p : String → Bool)
    (key : String) (hk : p key = false) :
    (l.filter (fun kv => p kv.1)).lookup key = none := by
  induction l with
  | nil => rfl
  | cons hd tl ih =>
    obtain ⟨a, b⟩ := hd
    rw [List.filter_cons]
    by_cases hpa : p a = true
    · rw [if_pos hpa, List.lookup_cons]
      have hne : (key == a) = false := by
        rw [beq_eq_false_iff_ne]
        intro h
        rw [h] at hk
        rw [hk] at hpa
        exact Bool.false_ne_true hpa
      rw [hne]
      exact ih
    · rw [if_neg hpa]
      exact ih

/-- C4: an acquire whose fingerprint matches a registered, live ServerHandle
bumps that handle's reference count and returns it without starting a new
process; release decrements, deregistering, freeing accelerator ids and
stopping the process (terminate, then kill after the 15s grace) only when
the count reaches zero; and on the concrete two-acquire scenario exactly one
child process is started, the first release leaves the server registered and
the second tears it down. -/
theorem acquire_release_refcount :
    (∀ (st : PoolState) (vllmInstalled : Bool) (model : String) (tp dp : Nat)
        (gpu_mem max_len extra_args_json : String) (existing : ServerHandle),
      supportsLocalMode st.total_gpus vllmInstalled = none →
      tp * dp ≤ st.total_gpus →
      lookupServer st (buildServerKey model tp dp gpu_mem max_len extra_args_json) =
        some existing →
      existing.processAlive = true →
      acquireServer st vllmInstalled model tp dp gpu_mem max_len extra_args_json false =
        AcquireOutcome.ok
          (bumpServerRefCount st (buildServerKey model tp dp gpu_mem max_len extra_args_json))
          { existing with ref_count := existing.ref_count + 1 } false ∧
      lookupServer
          (bumpServerRefCount st (buildServerKey model tp dp gpu_mem max_len extra_args_json))
          (buildServerKey model tp dp gpu_mem max_len extra_args_json) =
        some { existing with ref_count := existing.ref_count + 1 }) ∧
    (∀ (st : PoolState) (handle current : ServerHandle),
      lookupServer st handle.key = some current →
      (1 < current.ref_count →
        releaseServer st handle =
          (setServerRefCount st handle.key (current.ref_count - 1), none) ∧
        lookupServer (setServerRefCount st handle.key (current.ref_count - 1)) handle.key =
          some { current with ref_count := current.ref_count - 1 }) ∧
      (current.ref_count ≤ 1 →
        lookupServer (releaseServer st handle).1 handle.key = none ∧
        (releaseServer st handle).1.allocated_gpu_ids =
          st.allocated_gpu_ids.filter (fun i => decide (i ∉ current.gpu_ids)) ∧
        (releaseServer st handle).2 =
          (if current.processAlive then some { graceSeconds := 15 } else none))) ∧
    (acquireServer poolC4₀ true "org/model-a" 1 1 "0.9" "None" "[]" false =
        AcquireOutcome.ok poolC4₁ handleC4 true ∧
      acquireServer poolC4₁ true "org/model-a" 1 1 "0.9" "None" "[]" false =
        AcquireOutcome.ok poolC4₂ handleC4₂ false ∧
      releaseServer poolC4₂ handleC4₂ = (poolC4₁, none) ∧
      releaseServer poolC4₁ handleC4 = (poolC4End, some { graceSeconds := 15 })) := by
  refine ⟨?_, ?_, ?_, ?_, ?_, ?_⟩
  · intro st vllmInstalled model tp dp gpu_mem max_len extra_args_json existing
      hsup htp hlook halive
    constructor
    · simp [acquireServer, hsup, not_lt.mpr htp, hlook, halive]
    · simp only [lookupServer, bumpServerRefCount]
      rw [lookup_map_update]
      have h := hlook
      simp only [lookupServer] at h
      rw [h]
      rfl
  · intro st handle current hlook
    constructor
    · intro hgt
      have hpos : 0 < current.ref_count - 1 := by omega
      constructor
      · simp [releaseServer, hlook, hpos]
      · simp only [lookupServer, setServerRefCount]
        rw [lookup_map_update]
        have h := hlook
        simp only [lookupServer] at h
        rw [h]
        rfl
    · intro hle
      have hpos : ¬ 0 < current.ref_count - 1 := by omega
      have hpos' : ¬ 1 < current.ref_count := by omega
      have hred : releaseServer st handle =
          (releaseGpuIds
            { st with servers := st.servers.filter (fun kv => !(kv.1 == handle.key)) }
            current.gpu_ids,
           if current.processAlive then some { graceSeconds := 15 } else none) := by
        simp [releaseServer, hlook, hpos, hpos']
      rw [hred]
      refine ⟨?_, rfl, rfl⟩
      exact lookup_filter_prop st.servers (fun k => !(k == handle.key)) handle.key
        (by simp)
  · rfl
  · rfl
  · rfl
  · rfl

/-- Witness for C4 (the sharing conjunct at the concrete pool state after
one acquire): a second acquire with identical inputs returns the same live
handle with reference count 2 and starts no process. -/
theorem acquire_release_refcount_witness :
    acquireServer poolC4₁ true "org/model-a" 1 1 "0.9" "None" "[]" false =
      AcquireOutcome.ok (bumpServerRefCount poolC4₁ keyC4)
        { handleC4 with ref_count := handleC4.ref_count + 1 } false ∧
    lookupServer (bumpServerRefCount poolC4₁ keyC4) keyC4 =
      some { handleC4 with ref_count := handleC4.ref_count + 1 } :=
  acquire_release_refcount.1 poolC4₁ true "org/model-a" 1 1 "0.9" "None" "[]"
    handleC4 rfl (by decide) rfl rfl

/-- C5: acquire fails immediately — before and independent of any blocking
wait on resource availability — when local mode is unsupported or when
`tensor_parallel × data_parallel` exceeds the total accelerator count; with
2 total accelerators, `acquire(tp=2, dp=2)` raises for every registry and
allocation state. -/
theorem acquire_fail_fast :
    (∀ (st : PoolState) (vllmInstalled : Bool) (model : String) (tp dp : Nat)
        (gpu_mem max_len extra_args_json : String) (glmTooOld : Bool) (reason : String),
      supportsLocalMode st.total_gpus vllmInstalled = some reason →
      acquireServer st vllmInstalled model tp dp gpu_mem max_len extra_args_json glmTooOld =
        AcquireOutcome.error reason) ∧
    (∀ (st : PoolState) (vllmInstalled : Bool) (model : String) (tp dp : Nat)
        (gpu_mem max_len extra_args_json : String) (glmTooOld : Bool),
      supportsLocalMode st.total_gpus vllmInstalled = none →
      st.total_gpus < tp * dp →
      acquireServer st vllmInstalled model tp dp gpu_mem max_len extra_args_json glmTooOld =
        AcquireOutcome.error (oversubscriptionMessage tp dp st.total_gpus)) ∧
    (∀ (servers : List (String × ServerHandle)) (allocated : List Nat)
        (maxModels nextPort : Nat) (model gpu_mem max_len extra_args_json : String)
        (glmTooOld : Bool),
      acquireServer
        { servers := servers, allocated_gpu_ids := allocated, total_gpus := 2,
          local_max_concurrent_models := maxModels, next_port := nextPort }
        true model 2 2 gpu_mem max_len extra_args_json glmTooOld =
        AcquireOutcome.error (oversubscriptionMessage 2 2 2)) := by
  refine ⟨?_, ?_, ?_⟩
  · intro st vllmInstalled model tp dp gpu_mem max_len extra_args_json glmTooOld reason hsup
    simp [acquireServer, hsup]
  · intro st vllmInstalled model tp dp gpu_mem max_len extra_args_json glmTooOld hsup hover
    simp [acquireServer, hsup, hover]
  · intro servers allocated maxModels nextPort model gpu_mem max_len extra_args_json glmTooOld
    simp [acquireServer, supportsLocalMode]

/-- Witness for C5: `acquire(tp=2, dp=2)` on an empty pool with 2 total
accelerators raises the oversubscription error. -/
theorem acquire_fail_fast_witness :
    acquireServer
      { servers := [], allocated_gpu_ids := [], total_gpus := 2,
        local_max_concurrent_models := 2, next_port := 8000 }
      true "org/model-a" 2 2 "0.9" "None" "[]" false =
      AcquireOutcome.error (oversubscriptionMessage 2 2 2) :=
  acquire_fail_fast.2.2 [] [] 2 8000 "org/model-a" "0.9" "None" "[]" false

/-- C9 (counterexample): on a canceled job whose executor task is still
active — reachable because `cancel_job` marks the job canceled while its
runs are still converging — `dismiss` fails with the reason
"job is still running", which is neither of the two reason strings the claim
allows. -/
theorem dismiss_reason_outside_claimed_set :
    (dismissJob managerStateC9 "job-c").2.1 = false ∧
    (dismissJob managerStateC9 "job-c").2.2 = some "job is still running" ∧
    (some "job is still running" : Option String) ≠ some "job not found" ∧
    (some "job is still running" : Option String) ≠
      some "only completed or canceled jobs can be dismissed" := by
  refine ⟨rfl, rfl, by decide, by decide⟩

/-- C9 (amended): `dismiss(job_id)` succeeds exactly when the job exists,
its status is completed or canceled, and no executor task for it is still
active, in which case the job, its task, its cancel event and its run
metrics are removed from memory (a subsequent lookup returns nothing,
on-disk artifacts untouched); otherwise it fails with reason exactly
"job not found" (missing job), "only completed or canceled jobs can be
dismissed" (non-terminal status), or "job is still running" (terminal status
but the executor task has not finished). -/
theorem dismiss_job_policy (st : ManagerState) (job_id : String) :
    (st.jobs.lookup job_id = none →
      dismissJob st job_id = (st, false, some "job not found")) ∧
    (∀ job, st.jobs.lookup job_id = some job →
      ¬(job.status = RunStatus.completed ∨ job.status = RunStatus.canceled) →
      dismissJob st job_id =
        (st, false, some "only completed or canceled jobs can be dismissed")) ∧
    (∀ job, st.jobs.lookup job_id = some job →
      (job.status = RunStatus.completed ∨ job.status = RunStatus.canceled) →
      st.tasks.lookup job_id = some false →
      dismissJob st job_id = (st, false, some "job is still running")) ∧
    (∀ job, st.jobs.lookup job_id = some job →
      (job.status = RunStatus.completed ∨ job.status = RunStatus.canceled) →
      (st.tasks.lookup job_id = none ∨ st.tasks.lookup job_id = some true) →
      (dismissJob st job_id).2.1 = true ∧
      (dismissJob st job_id).2.2 = none ∧
      getJob (dismissJob st job_id).1 job_id = none ∧
      (dismissJob st job_id).1.tasks.lookup job_id = none ∧
      job_id ∉ (dismissJob st job_id).1.cancel_events ∧
      (∀ rid ∈ (st.contexts.lookup job_id).getD [],
        (dismissJob st job_id).1.run_metrics.lookup (runMetricsKey job_id rid) = none)) := by
  refine ⟨?_, ?_, ?_, ?_⟩
  · intro h
    simp [dismissJob, h]
  · intro job hj hstat
    simp [dismissJob, hj, hstat]
  · intro job hj hstat ht
    rcases hstat with h | h <;> simp [dismissJob, hj, h, ht]
  · intro job hj hstat htask
    have hres : dismissJob st job_id =
        ({ jobs := st.jobs.filter (fun kv => !(kv.1 == job_id))
           tasks := st.tasks.filter (fun kv => !(kv.1 == job_id))
           contexts := st.contexts.filter (fun kv => !(kv.1 == job_id))
           cancel_events := st.cancel_events.filter (fun j => !(j == job_id))
           run_metrics := st.run_metrics.filter
             (fun kv => decide (kv.1 ∉
               ((st.contexts.lookup job_id).getD []).map (runMetricsKey job_id))) },
         true, none) := by
      rcases hstat with h | h <;> rcases htask with ht | ht <;>
        simp [dismissJob, hj, h, ht]
    rw [hres]
    refine ⟨rfl, rfl, ?_, ?_, ?_, ?_⟩
    · exact lookup_filter_prop st.jobs (fun k => !(k == job_id)) job_id (by simp)
    · exact lookup_filter_prop st.tasks (fun k => !(k == job_id)) job_id (by simp)
    · intro hmem
      simp [List.mem_filter] at hmem
    · intro rid hrid
      have hmem : runMetricsKey job_id rid ∈
          ((st.contexts.lookup job_id).getD []).map (runMetricsKey job_id) :=
        List.mem_map_of_mem _ hrid
      exact lookup_filter_prop st.run_metrics
        (fun k => decide (k ∉ ((st.contexts.lookup job_id).getD []).map (runMetricsKey job_id)))
        (runMetricsKey job_id rid) (by simp [hmem])

/-- Witness for C9 (amended) on a completed job with a finished task: the
dismissal succeeds with no reason and every in-memory trace of the job is
gone. -/
theorem dismiss_job_policy_witness :
    (dismissJob managerStateC9ok "job-d").2.1 = true ∧
    (dismissJob managerStateC9ok "job-d").2.2 = none ∧
    getJob (dismissJob managerStateC9ok "job-d").1 "job-d" = none ∧
    (dismissJob managerStateC9ok "job-d").1.tasks.lookup "job-d" = none ∧
    "job-d" ∉ (dismissJob managerStateC9ok "job-d").1.cancel_events ∧
    (∀ rid ∈ (managerStateC9ok.contexts.lookup "job-d").getD [],
      (dismissJob managerStateC9ok "job-d").1.run_metrics.lookup
        (runMetricsKey "job-d" rid) = none) :=
  (dismiss_job_policy managerStateC9ok "job-d").2.2.2 jobC9completed rfl
    (Or.inl rfl) (Or.inr rfl)

end Tracr
